import Mathlib

/-!
Verification development for the adp-driver-sync repository.

The Go sources are embedded shallowly:
  - the adp package exists in two divergent variants among the sources; the
    variant whose NewClient takes five arguments (client id, secret, base URL,
    certificate file, key file) is the one imported by the main program.  It is
    embedded in namespace adp2; the three-argument variant (which extracts the
    employee number from the digits of the worker id) is embedded in namespace
    adp1.  The token-handling functions getAccessToken and ensureValidToken are
    textually identical in the two variants and are embedded once, at top level.
  - HTTP exchanges are modelled by passing the outcome of each wire interaction
    as an explicit argument: a token exchange outcome is an
    Except String TokenResp (an error covers a transport failure, a non-200
    status, and an undecodable body alike, exactly the three early-return error
    paths of getAccessToken), and a workers response is a status code paired
    with the outcome of decoding its body.
  - time is modelled in whole seconds as an Int; time.Now().After(x) is the
    strict comparison now > x, and the 5 minute safety margin is 300 seconds.
  - the mikealbert package is not among the provided sources; the record shape
    returned by its find endpoint and the RunReport vocabulary are modelled
    from the spec where a claim needs them, and are marked as such.
  - the main program's reconciliation loop is embedded as a trace semantics:
    runSync returns the ordered list of fleet-side calls the loop performs,
    each tagged with whether the call failed.
-/

/-- Name information of a worker (ADPName in both adp variants). -/
structure ADPName where
  GivenName : String
  FamilyName : String
  deriving Repr, DecidableEq

/-- Personal information of a worker (ADPPerson in both adp variants). -/
structure ADPPerson where
  LegalName : ADPName
  deriving Repr, DecidableEq

/-- Address fields of a worker (ADPAddress in both adp variants). -/
structure ADPAddress where
  Line1 : String
  Line2 : String
  City : String
  Region : String
  PostalCode : String
  deriving Repr, DecidableEq

/-- Home address container (ADPHomeLocation in both adp variants). -/
structure ADPHomeLocation where
  Address : ADPAddress
  deriving Repr, DecidableEq

/-- Work assignment record (ADPWorkAssignment in both adp variants): the Go
struct declares a single field, the home work location. -/
structure ADPWorkAssignment where
  HomeWorkLocation : ADPHomeLocation
  deriving Repr, DecidableEq

/-- Normalized driver record produced by the adp package
(DriverHomeAddress in both variants), field order as in the Go struct. -/
structure DriverHomeAddress where
  EmployeeNumber : String
  LastName : String
  FirstName : String
  Address1 : String
  Address2 : String
  City : String
  State : String
  ZIPCode : String
  deriving Repr, DecidableEq

/-- Decoded body of a successful token exchange: the JSON-tagged fields of the
Go OAuth2Token struct (access_token, token_type, expires_in). -/
structure TokenResp where
  AccessToken : String
  TokenType : String
  ExpiresIn : Int
  deriving Repr, DecidableEq

/-- Cached OAuth2 token (the Go OAuth2Token struct after getAccessToken set
ExpiresAt): the decoded fields plus the absolute expiry instant. -/
structure OAuth2Token where
  AccessToken : String
  TokenType : String
  ExpiresIn : Int
  ExpiresAt : Int
  deriving Repr, DecidableEq

/-- Embedding of getAccessToken, identical in both adp variants.  The state is
the client's oauth2Token field (none when no token is cached).  The argument
exch is the outcome of the wire exchange: an error stands for any of the three
failure paths (transport error, non-200 status, undecodable body), each of
which returns early without touching the cached token; on success the cached
token is replaced wholesale and its expiry set to now plus ExpiresIn seconds. -/
def getAccessToken (now : Int) (st : Option OAuth2Token)
    (exch : Except String TokenResp) : Option OAuth2Token × Except String Unit :=
  match exch with
  | Except.error e => (st, Except.error e)
  | Except.ok r =>
      (some { AccessToken := r.AccessToken, TokenType := r.TokenType,
              ExpiresIn := r.ExpiresIn, ExpiresAt := now + r.ExpiresIn },
       Except.ok ())

/-- Refresh condition of ensureValidToken: the cached token is absent, or
time.Now() is strictly after ExpiresAt minus the 5 minute (300 second) safety
margin. -/
def needsRefresh (st : Option OAuth2Token) (now : Int) : Bool :=
  match st with
  | none => true
  | some t => decide (now > t.ExpiresAt - 300)

/-- Embedding of ensureValidToken, identical in both adp variants: when the
refresh condition holds it delegates to getAccessToken, otherwise it does
nothing.  The middle component of the result records whether a token exchange
was performed. -/
def ensureValidToken (now : Int) (st : Option OAuth2Token)
    (exch : Except String TokenResp) :
    Option OAuth2Token × Bool × Except String Unit :=
  if needsRefresh st now then
    let p := getAccessToken now st exch
    (p.1, true, p.2)
  else
    (st, false, Except.ok ())

/-- Embedding of onlyNums, identical in both adp variants: keep exactly the
bytes between the characters 0 and 9, in order.  (Go filters over the UTF-8
bytes; a byte in that range is always a standalone ASCII digit character, so
filtering the characters is equivalent.) -/
def onlyNums (s : String) : String :=
  String.mk (s.data.filter (fun c => decide ('0' ≤ c) && decide (c ≤ '9')))

/-- Embedding of extractEmployeeNumber, identical in both adp variants. -/
def extractEmployeeNumber (workerID : String) : String :=
  onlyNums workerID

namespace adp1

/-- Worker record of the three-argument adp variant: its workerId field is a
plain string. -/
structure ADPWorker where
  WorkerID : String
  Person : ADPPerson
  WorkAssignments : List ADPWorkAssignment
  deriving Repr, DecidableEq

/-- One iteration of the GetDriverHomeAddresses loop of the three-argument
variant: a worker with no work assignments is skipped (logged and continue),
otherwise a DriverHomeAddress is built from the first assignment, with the
employee number extracted from the digits of the worker id. -/
def driverOfWorker (w : ADPWorker) : Option DriverHomeAddress :=
  match w.WorkAssignments with
  | [] => none
  | a :: _ =>
      some { EmployeeNumber := extractEmployeeNumber w.WorkerID,
             LastName := w.Person.LegalName.FamilyName,
             FirstName := w.Person.LegalName.GivenName,
             Address1 := a.HomeWorkLocation.Address.Line1,
             Address2 := a.HomeWorkLocation.Address.Line2,
             City := a.HomeWorkLocation.Address.City,
             State := a.HomeWorkLocation.Address.Region,
             ZIPCode := a.HomeWorkLocation.Address.PostalCode }

/-- The mapping loop of GetDriverHomeAddresses of the three-argument variant
over an already fetched worker list, in list order. -/
def mapWorkers (ws : List ADPWorker) : List DriverHomeAddress :=
  ws.filterMap driverOfWorker

end adp1

namespace adp2

/-- Worker id object of the five-argument adp variant (ADPWorkerID). -/
structure ADPWorkerID where
  IDValue : String
  deriving Repr, DecidableEq

/-- Worker record of the five-argument adp variant. -/
structure ADPWorker where
  WorkerID : ADPWorkerID
  Person : ADPPerson
  WorkAssignments : List ADPWorkAssignment
  deriving Repr, DecidableEq

/-- One iteration of the GetDriverHomeAddresses loop of the five-argument
variant: a worker with no work assignments is skipped (logged and continue),
otherwise a DriverHomeAddress is built from the first assignment, with the
worker id value used directly as the employee number. -/
def driverOfWorker (w : ADPWorker) : Option DriverHomeAddress :=
  match w.WorkAssignments with
  | [] => none
  | a :: _ =>
      some { EmployeeNumber := w.WorkerID.IDValue,
             LastName := w.Person.LegalName.FamilyName,
             FirstName := w.Person.LegalName.GivenName,
             Address1 := a.HomeWorkLocation.Address.Line1,
             Address2 := a.HomeWorkLocation.Address.Line2,
             City := a.HomeWorkLocation.Address.City,
             State := a.HomeWorkLocation.Address.Region,
             ZIPCode := a.HomeWorkLocation.Address.PostalCode }

/-- The mapping loop of GetDriverHomeAddresses of the five-argument variant
over an already fetched worker list, in list order. -/
def mapWorkers (ws : List ADPWorker) : List DriverHomeAddress :=
  ws.filterMap driverOfWorker

/-- Embedding of GetDriverHomeAddresses of the five-argument variant: it calls
GetWorkers and propagates its error unchanged; on success it runs the mapping
loop.  The argument is the outcome of the GetWorkers call. -/
def GetDriverHomeAddresses (workersResult : Except String (List ADPWorker)) :
    Except String (List DriverHomeAddress) :=
  match workersResult with
  | Except.error e => Except.error e
  | Except.ok ws => Except.ok (mapWorkers ws)

/-- A workers request as issued by GetWorkers: the path of the URL and the
optional offset/limit cursor parameters carried in the query string.  The
five-argument variant builds the URL as baseURL followed by /hr/v2/workers with
no query parameters at all, so both cursor fields are none in the embedding. -/
structure WorkersRequest where
  path : String
  top : Option Nat
  skip : Option Nat
  deriving Repr, DecidableEq

/-- Embedding of GetWorkers of the five-argument variant.  It first runs
ensureValidToken (arguments now, st, exch as above); a token failure returns
early, wrapped in a failed-to-get-valid-token error, before any workers
request is issued.  Otherwise exactly one request is issued, with no cursor
parameters; resp is that single response, a status code paired with the
outcome of decoding its body.  A non-200 status and a decode failure are
errors; otherwise the decoded workers array is returned as a whole.  The
result carries the token state, the list of workers requests issued, and the
outcome. -/
def GetWorkers (now : Int) (st : Option OAuth2Token)
    (exch : Except String TokenResp)
    (resp : Nat × Except String (List adp2.ADPWorker)) :
    Option OAuth2Token × List WorkersRequest × Except String (List adp2.ADPWorker) :=
  match ensureValidToken now st exch with
  | (st2, _, Except.error e) =>
      (st2, [], Except.error ("failed to get valid token: " ++ e))
  | (st2, _, Except.ok _) =>
      let req : WorkersRequest := { path := "/hr/v2/workers", top := none, skip := none }
      if resp.1 = 200 then
        match resp.2 with
        | Except.error e =>
            (st2, [req], Except.error ("failed to decode workers response: " ++ e))
        | Except.ok ws => (st2, [req], Except.ok ws)
      else
        (st2, [req], Except.error ("workers request failed with status " ++ toString resp.1))

end adp2

/-- A custom field of the HR wire format, a name code paired with a value.
Modelled from the spec: the provided Go sources declare no custom field
struct, but the spec describes an optional custom-field group, each field
tagged with a name code, at both worker and assignment scope. -/
structure RawCustomField where
  NameCode : String
  Value : String
  deriving Repr, DecidableEq

/-- A work assignment of the HR wire format.  Modelled from the spec: besides
the home work location (the only part the provided Go structs decode), the
spec describes a payroll file number, an assignment status code and
assignment-scope custom fields on the wire. -/
structure RawAssignment where
  HomeWorkLocation : ADPHomeLocation
  AssignmentStatusCode : String
  CustomFields : List RawCustomField
  deriving Repr, DecidableEq

/-- A worker record of the HR wire format.  Modelled from the spec: the wire
record carries the worker id value, the person, the work assignments and
worker-scope custom fields. -/
structure RawWorker where
  IDValue : String
  Person : ADPPerson
  WorkAssignments : List RawAssignment
  CustomFields : List RawCustomField
  deriving Repr, DecidableEq

/-- JSON decoding of a wire worker record into the Go ADPWorker struct of the
five-argument variant.  Go's encoding/json ignores every JSON member that has
no counterpart field in the target struct: the struct keeps workerId.idValue,
person and, per work assignment, only homeWorkLocation; the status code and
the custom fields at both scopes are dropped. -/
def decodeWorker (r : RawWorker) : adp2.ADPWorker :=
  { WorkerID := { IDValue := r.IDValue },
    Person := r.Person,
    WorkAssignments := r.WorkAssignments.map (fun a => { HomeWorkLocation := a.HomeWorkLocation }) }

/-- Fleet-side driver record.  Modelled from the spec: the mikealbert package
is not among the provided sources; the spec describes the find endpoint as
returning zero or more records carrying a driver id and an address object with
address1, address2 and postCode. -/
structure MaDriver where
  driverId : String
  address1 : String
  address2 : String
  postCode : String
  deriving Repr, DecidableEq

/-- An update call as issued by the main loop: UpdateDriver receives the
matched record's driver id and the source driver's Address1, Address2 and
ZIPCode. -/
structure UpdateCall where
  driverId : String
  address1 : String
  address2 : String
  zipCode : String
  deriving Repr, DecidableEq

/-- The update call the main loop builds for source driver d and matched
fleet record r. -/
def mkCall (d : DriverHomeAddress) (r : MaDriver) : UpdateCall :=
  { driverId := r.driverId, address1 := d.Address1,
    address2 := d.Address2, zipCode := d.ZIPCode }

/-- One observable fleet-side call of the main loop: a FindDrivers lookup
keyed by the employee number, or an UpdateDriver call; each carries whether
the call failed (in which case the loop logs the employee-number-tagged error
and continues). -/
inductive Event where
  | lookup (employeeNumber : String) (failed : Bool)
  | update (call : UpdateCall) (failed : Bool)
  deriving Repr, DecidableEq

/-- One iteration of the inner loop of main: UpdateDriver is called for the
matched record unconditionally; an error is logged and the loop continues. -/
def processRecord (update : UpdateCall → Except String Unit)
    (d : DriverHomeAddress) (r : MaDriver) : Event :=
  let c := mkCall d r
  match update c with
  | Except.ok _ => Event.update c false
  | Except.error _ => Event.update c true

/-- One iteration of the outer loop of main: FindDrivers is called with the
driver's employee number; on error the loop logs and continues to the next
driver, on success every returned record is processed by the inner loop. -/
def processDriver (find : String → Except String (List MaDriver))
    (update : UpdateCall → Except String Unit)
    (d : DriverHomeAddress) : List Event :=
  match find d.EmployeeNumber with
  | Except.error _ => [Event.lookup d.EmployeeNumber true]
  | Except.ok rs =>
      Event.lookup d.EmployeeNumber false :: rs.map (processRecord update d)

/-- Trace semantics of the reconciliation loop of main: the ordered list of
fleet-side calls performed for the given driver list, with find and update
the outcomes of the two fleet operations. -/
def runSync (find : String → Except String (List MaDriver))
    (update : UpdateCall → Except String Unit)
    (ds : List DriverHomeAddress) : List Event :=
  ds.flatMap (processDriver find update)

/-- The update calls attempted in a trace, in order. -/
def updateCallsOf (es : List Event) : List UpdateCall :=
  es.filterMap (fun e =>
    match e with
    | Event.update c _ => some c
    | Event.lookup _ _ => none)

/-- The FindDrivers lookup keys issued in a trace, in order. -/
def lookupCallsOf (es : List Event) : List String :=
  es.filterMap (fun e =>
    match e with
    | Event.lookup s _ => some s
    | Event.update _ _ => none)

/-- Per-outcome run counters.  Modelled from the spec: no counter of any kind
appears in the provided main program; the type exists so that the presence or
absence of an emitted run summary can be stated. -/
structure RunReport where
  totalSourceDrivers : Nat
  updated : Nat
  unchanged : Nat
  notFoundInSink : Nat
  skipped : Nat
  errors : Nat
  deriving Repr, DecidableEq

/-- Embedding of the driver-processing part of main, from the
GetDriverHomeAddresses call on.  The first component is the fatal error: on a
fetch error main logs it and exits nonzero before any fleet-side call.  The
second component is the fleet-side call trace of the loop.  The third
component is the run summary printed after the loop; the provided main
contains no statement after the loop, so no summary is ever emitted. -/
def mainRun (driversResult : Except String (List DriverHomeAddress))
    (find : String → Except String (List MaDriver))
    (update : UpdateCall → Except String Unit) :
    Option String × List Event × Option RunReport :=
  match driversResult with
  | Except.error e => (some e, [], none)
  | Except.ok ds => (none, runSync find update ds, none)

/-- Surrounding-whitespace trim over a character list. -/
def trimChars (l : List Char) : List Char :=
  ((l.dropWhile Char.isWhitespace).reverse.dropWhile Char.isWhitespace).reverse

/-- Claim-side address comparison, following the claim's words: equality after
trimming surrounding whitespace, case-insensitively. -/
def claimAddrEq (a b : String) : Bool :=
  (trimChars a.data).map Char.toLower == (trimChars b.data).map Char.toLower

/-- Claim-side postal-code comparison, following the claim's words: the two
codes agree on their first 5 characters. -/
def claimZipEq (a b : String) : Bool :=
  a.data.take 5 == b.data.take 5

/-- List infix test over characters: does the needle occur contiguously in the
haystack. -/
def hasSub (needle : List Char) : List Char → Bool
  | [] => needle.isEmpty
  | c :: t => needle.isPrefixOf (c :: t) || hasSub needle t

/-- Claim-side marker-name normalization, following the claim's words: the
opt-out field name is matched case-insensitively and tolerating spacing and
punctuation, so normalization keeps the alphanumeric characters uppercased. -/
def markerNorm (s : String) : String :=
  String.mk ((s.data.filter Char.isAlphanum).map Char.toUpper)

/-- Claim-side opt-out test, following the claim's words: some custom field,
at worker or assignment level, whose normalized name contains OVERDRIVE, is
present with value No in any casing. -/
def claimOptOutPresent (r : RawWorker) : Bool :=
  (r.CustomFields ++ (r.WorkAssignments.map RawAssignment.CustomFields).flatten).any
    (fun f => hasSub ("OVERDRIVE".data) (markerNorm f.NameCode).data
              && f.Value.data.map Char.toLower == "no".data)

/-- Sample person shared by the concrete scenarios below. -/
def samplePerson : ADPPerson :=
  { LegalName := { GivenName := "Jan", FamilyName := "Doe" } }

/-- Sample home location shared by the concrete scenarios below. -/
def sampleLoc : ADPHomeLocation :=
  { Address := { Line1 := "1 Main St", Line2 := "", City := "Cincinnati",
                 Region := "OH", PostalCode := "45202" } }

/-- Sample worker of the five-argument variant, with one assignment. -/
def sampleWorker2 : adp2.ADPWorker :=
  { WorkerID := { IDValue := "W77" }, Person := samplePerson,
    WorkAssignments := [{ HomeWorkLocation := sampleLoc }] }

/-- Worker of the five-argument variant whose id value carries leading
zeros. -/
def worker00321 : adp2.ADPWorker :=
  { WorkerID := { IDValue := "00321" }, Person := samplePerson,
    WorkAssignments := [{ HomeWorkLocation := sampleLoc }] }

/-- Worker of the three-argument variant whose worker id contains no digit. -/
def workerNoDigits : adp1.ADPWorker :=
  { WorkerID := "ABC", Person := samplePerson,
    WorkAssignments := [{ HomeWorkLocation := sampleLoc }] }

/-- Wire worker that carries the opt-out marker with value No (name a
spacing/punctuation variant containing OVERDRIVE) and a non-active assignment
status, with one work assignment. -/
def rawOptedOut : RawWorker :=
  { IDValue := "W9", Person := samplePerson,
    WorkAssignments := [{ HomeWorkLocation := sampleLoc,
                          AssignmentStatusCode := "T", CustomFields := [] }],
    CustomFields := [{ NameCode := "Over-Drive Participation", Value := "No" }] }

/-- Source driver whose address differs from the matched fleet record only in
surrounding whitespace, letter case and the ZIP+4 suffix. -/
def driverSame : DriverHomeAddress :=
  { EmployeeNumber := "123", LastName := "Doe", FirstName := "Jan",
    Address1 := " 1 Main St ", Address2 := "", City := "Cincinnati",
    State := "OH", ZIPCode := "45202-1234" }

/-- Fleet record matching driverSame up to normalization: same address after
trimming and lowercasing, same first 5 postal characters. -/
def fleetSame : MaDriver :=
  { driverId := "D1", address1 := "1 main st", address2 := "",
    postCode := "45202" }

/-- Find outcome that matches every key to the single record fleetSame. -/
def findFleetSame : String → Except String (List MaDriver) :=
  fun _ => Except.ok [fleetSame]

/-- Find outcome that matches no key. -/
def findNone : String → Except String (List MaDriver) :=
  fun _ => Except.ok []

/-- Update outcome that always succeeds. -/
def updOk : UpdateCall → Except String Unit :=
  fun _ => Except.ok ()

/-- A cached token that expired at instant 0. -/
def expiredToken : OAuth2Token :=
  { AccessToken := "old", TokenType := "Bearer", ExpiresIn := 3600, ExpiresAt := 0 }

/-- A cached token valid until instant 3600. -/
def freshToken : OAuth2Token :=
  { AccessToken := "tok", TokenType := "Bearer", ExpiresIn := 3600, ExpiresAt := 3600 }

/-- A decoded token-exchange response body. -/
def sampleTokenResp : TokenResp :=
  { AccessToken := "new", TokenType := "Bearer", ExpiresIn := 3600 }

/-- The driver record the three-argument variant emits for workerNoDigits:
its employee number is empty because the worker id carries no digit. -/
def dNoDigits : DriverHomeAddress :=
  { EmployeeNumber := "", LastName := "Doe", FirstName := "Jan",
    Address1 := "1 Main St", Address2 := "", City := "Cincinnati",
    State := "OH", ZIPCode := "45202" }


/-! Helper lemmas about the trace semantics of the main loop. -/

/-- The update calls of a concatenated trace are the concatenation of the
update calls. -/
theorem updateCallsOf_append (es fs : List Event) :
    updateCallsOf (es ++ fs) = updateCallsOf es ++ updateCallsOf fs := by
  simp [updateCallsOf]

/-- The lookup keys of a concatenated trace are the concatenation of the
lookup keys. -/
theorem lookupCallsOf_append (es fs : List Event) :
    lookupCallsOf (es ++ fs) = lookupCallsOf es ++ lookupCallsOf fs := by
  simp [lookupCallsOf]

/-- A lookup event contributes no update call. -/
theorem updateCallsOf_cons_lookup (s : String) (b : Bool) (es : List Event) :
    updateCallsOf (Event.lookup s b :: es) = updateCallsOf es := by
  simp [updateCallsOf]

/-- A lookup event contributes its key. -/
theorem lookupCallsOf_cons_lookup (s : String) (b : Bool) (es : List Event) :
    lookupCallsOf (Event.lookup s b :: es) = s :: lookupCallsOf es := by
  simp [lookupCallsOf]

/-- Whatever the update outcome, the inner-loop iteration contributes exactly
the call built from the driver and the matched record. -/
theorem updateCallsOf_cons_processRecord (u : UpdateCall → Except String Unit)
    (d : DriverHomeAddress) (r : MaDriver) (es : List Event) :
    updateCallsOf (processRecord u d r :: es) = mkCall d r :: updateCallsOf es := by
  unfold processRecord
  cases h : u (mkCall d r) <;> simp [h, updateCallsOf]

/-- An inner-loop iteration contributes no lookup key. -/
theorem lookupCallsOf_cons_processRecord (u : UpdateCall → Except String Unit)
    (d : DriverHomeAddress) (r : MaDriver) (es : List Event) :
    lookupCallsOf (processRecord u d r :: es) = lookupCallsOf es := by
  unfold processRecord
  cases h : u (mkCall d r) <;> simp [h, lookupCallsOf]

/-- The inner loop attempts one update call per matched record, independent of
every update outcome. -/
theorem updateCallsOf_map_processRecord (u : UpdateCall → Except String Unit)
    (d : DriverHomeAddress) : (rs : List MaDriver) →
    updateCallsOf (rs.map (processRecord u d)) = rs.map (mkCall d)
  | [] => rfl
  | r :: rs => by
      rw [List.map_cons, updateCallsOf_cons_processRecord,
          updateCallsOf_map_processRecord u d rs, List.map_cons]

/-- The inner loop issues no lookups. -/
theorem lookupCallsOf_map_processRecord (u : UpdateCall → Except String Unit)
    (d : DriverHomeAddress) : (rs : List MaDriver) →
    lookupCallsOf (rs.map (processRecord u d)) = []
  | [] => rfl
  | r :: rs => by
      rw [List.map_cons, lookupCallsOf_cons_processRecord,
          lookupCallsOf_map_processRecord u d rs]

/-- The update calls of one outer-loop iteration: none when the lookup fails,
one per returned record otherwise, independent of the update outcomes. -/
theorem updateCallsOf_processDriver (f : String → Except String (List MaDriver))
    (u : UpdateCall → Except String Unit) (d : DriverHomeAddress) :
    updateCallsOf (processDriver f u d)
      = (match f d.EmployeeNumber with
         | Except.error _ => []
         | Except.ok rs => rs.map (mkCall d)) := by
  unfold processDriver
  rcases hf : f d.EmployeeNumber with e | rs
  · simp [updateCallsOf]
  · rw [updateCallsOf_cons_lookup, updateCallsOf_map_processRecord]

/-- One outer-loop iteration issues exactly one lookup, keyed by the driver's
employee number. -/
theorem lookupCallsOf_processDriver (f : String → Except String (List MaDriver))
    (u : UpdateCall → Except String Unit) (d : DriverHomeAddress) :
    lookupCallsOf (processDriver f u d) = [d.EmployeeNumber] := by
  unfold processDriver
  rcases hf : f d.EmployeeNumber with e | rs
  · simp [lookupCallsOf]
  · rw [lookupCallsOf_cons_lookup, lookupCallsOf_map_processRecord]

/-- Unfolding of the loop over the first driver. -/
theorem runSync_cons (f : String → Except String (List MaDriver))
    (u : UpdateCall → Except String Unit) (d : DriverHomeAddress)
    (ds : List DriverHomeAddress) :
    runSync f u (d :: ds) = processDriver f u d ++ runSync f u ds := by
  simp [runSync]

/-- The loop over a concatenated driver list is the concatenation of the
loops. -/
theorem runSync_append (f : String → Except String (List MaDriver))
    (u : UpdateCall → Except String Unit) (ds1 ds2 : List DriverHomeAddress) :
    runSync f u (ds1 ++ ds2) = runSync f u ds1 ++ runSync f u ds2 := by
  simp [runSync]

/-- The update calls of a whole run, driver by driver: they depend only on
the lookup outcomes, never on the update outcomes or the address contents. -/
theorem updateCallsOf_runSync (f : String → Except String (List MaDriver))
    (u : UpdateCall → Except String Unit) (ds : List DriverHomeAddress) :
    updateCallsOf (runSync f u ds)
      = ds.flatMap (fun d =>
          match f d.EmployeeNumber with
          | Except.error _ => []
          | Except.ok rs => rs.map (mkCall d)) := by
  induction ds with
  | nil => rfl
  | cons d ds ih =>
      rw [runSync_cons, updateCallsOf_append, updateCallsOf_processDriver, ih,
          List.flatMap_cons]

/-- The lookup keys of a whole run: one per driver, in order, each the
driver's employee number exactly as it stands. -/
theorem lookupCallsOf_runSync (f : String → Except String (List MaDriver))
    (u : UpdateCall → Except String Unit) (ds : List DriverHomeAddress) :
    lookupCallsOf (runSync f u ds) = ds.map DriverHomeAddress.EmployeeNumber := by
  induction ds with
  | nil => rfl
  | cons d ds ih =>
      rw [runSync_cons, lookupCallsOf_append, lookupCallsOf_processDriver, ih,
          List.map_cons, List.singleton_append]

/-! Claim theorems. -/

/-- C6: a get-valid-token call performs a token exchange if and only if no
token is cached or the current time is past the cached token's expiry minus
the 5-minute safety margin; on a successful exchange the cached token is
replaced wholesale with expiry now plus ExpiresIn; outside the margin no
exchange is performed and the state is untouched. -/
theorem claim_C6 (now : Int) (st : Option OAuth2Token)
    (exch : Except String TokenResp) :
    ((ensureValidToken now st exch).2.1 = true
       ↔ st = none ∨ ∃ t, st = some t ∧ now > t.ExpiresAt - 300)
    ∧ (∀ r, ensureValidToken now st (Except.ok r)
        = if needsRefresh st now
          then (some { AccessToken := r.AccessToken, TokenType := r.TokenType,
                       ExpiresIn := r.ExpiresIn, ExpiresAt := now + r.ExpiresIn },
                true, Except.ok ())
          else (st, false, Except.ok ())) := by
  constructor
  · have hflag : (ensureValidToken now st exch).2.1 = needsRefresh st now := by
      unfold ensureValidToken
      by_cases h : needsRefresh st now <;> simp [h]
    rw [hflag]
    cases st with
    | none => simp [needsRefresh]
    | some t => simp [needsRefresh]
  · intro r
    unfold ensureValidToken getAccessToken
    by_cases h : needsRefresh st now <;> simp [h]

/-- Witness for C6 at a concrete input: with no cached token, a call performs
an exchange. -/
theorem claim_C6_witness :
    (ensureValidToken 1000 none (Except.ok sampleTokenResp)).2.1 = true :=
  (claim_C6 1000 none (Except.ok sampleTokenResp)).1.mpr (Or.inl rfl)

/-- C7 counterexample: with a cached token that expired at instant 0 and the
exchange failing at instant 1000, the operation returns the error but the
cache still holds the expired token, not the empty cache the claim
requires. -/
theorem claim_C7_counterexample :
    ensureValidToken 1000 (some expiredToken) (Except.error "boom")
      = (some expiredToken, true, Except.error "boom")
    ∧ some expiredToken ≠ (none : Option OAuth2Token)
    ∧ (1000 : Int) > expiredToken.ExpiresAt := by
  refine ⟨rfl, by simp, by decide⟩

/-- C7 amended: when the token exchange fails the operation returns an error
and leaves the cache exactly as it was, whether or not the previous token is
still valid; whenever a refresh was needed, a dependent call (the workers
fetch) fails with the propagated authentication error. -/
theorem claim_C7_amended (now : Int) (st : Option OAuth2Token) (e : String)
    (resp : Nat × Except String (List adp2.ADPWorker)) :
    ensureValidToken now st (Except.error e)
      = (st, needsRefresh st now,
         if needsRefresh st now then Except.error e else Except.ok ())
    ∧ (needsRefresh st now = true →
        (adp2.GetWorkers now st (Except.error e) resp).2
          = ([], Except.error ("failed to get valid token: " ++ e))) := by
  have hbase : ensureValidToken now st (Except.error e)
      = (st, needsRefresh st now,
         if needsRefresh st now then Except.error e else Except.ok ()) := by
    unfold ensureValidToken getAccessToken
    by_cases h : needsRefresh st now <;> simp [h]
  refine ⟨hbase, fun h => ?_⟩
  unfold adp2.GetWorkers
  rw [hbase, h]
  simp

/-- Witness for C7 at a concrete input: at instant 1000 with an expired cached
token, the refresh condition holds and the workers fetch fails with the
propagated token error. -/
theorem claim_C7_amended_witness :
    needsRefresh (some expiredToken) 1000 = true
    ∧ (adp2.GetWorkers 1000 (some expiredToken) (Except.error "boom")
         (200, Except.ok [])).2
        = ([], Except.error ("failed to get valid token: " ++ "boom")) :=
  ⟨by decide,
   (claim_C7_amended 1000 (some expiredToken) "boom" (200, Except.ok [])).2
     (by decide)⟩

/-- C4 counterexample: with a valid cached token at instant 0 and a single
200 response carrying 250 worker records (more than the 100-record page size
the claim supposes), the fetch issues exactly one workers request, carrying no
offset/limit cursor at all, and returns the whole response; no further page
is ever requested, so the stop-on-short-page cursor protocol of the claim does
not hold on the code. -/
theorem claim_C4_counterexample :
    (adp2.GetWorkers 0 (some freshToken) (Except.error "unused")
        (200, Except.ok (List.replicate 250 sampleWorker2))).2
      = ([{ path := "/hr/v2/workers", top := none, skip := none }],
         Except.ok (List.replicate 250 sampleWorker2))
    ∧ 100 < 250 := by
  exact ⟨rfl, by decide⟩

/-- C4 amended: the worker fetch obtains a valid token once, then issues a
single request with no offset/limit cursor; whenever the response has status
200 and decodes, the result is exactly that single response's workers array,
regardless of how many records it holds. -/
theorem claim_C4_amended (now : Int) (st : Option OAuth2Token)
    (exch : Except String TokenResp) (ws : List adp2.ADPWorker)
    (h : (ensureValidToken now st exch).2.2 = Except.ok ()) :
    (adp2.GetWorkers now st exch (200, Except.ok ws)).2
      = ([{ path := "/hr/v2/workers", top := none, skip := none }],
         Except.ok ws) := by
  unfold adp2.GetWorkers
  rcases hv : ensureValidToken now st exch with ⟨st2, b, res⟩
  rw [hv] at h
  cases res with
  | error e => exact absurd h (by simp)
  | ok u => simp

/-- Witness for C4 amended at a concrete input: fresh token at instant 0, a
200 response with an empty body array. -/
theorem claim_C4_amended_witness :
    (ensureValidToken 0 (some freshToken) (Except.error "x")).2.2 = Except.ok ()
    ∧ (adp2.GetWorkers 0 (some freshToken) (Except.error "x")
         (200, Except.ok [])).2
        = ([{ path := "/hr/v2/workers", top := none, skip := none }],
           Except.ok []) :=
  ⟨rfl, claim_C4_amended 0 (some freshToken) (Except.error "x") [] rfl⟩

/-- C1 counterexample: driverSame and the matched record fleetSame agree on
address1 and address2 case-insensitively after trimming and on the first 5
postal characters, yet the run issues an update call for that record (and
maintains no unchanged counter), where the claim requires that none be
issued. -/
theorem claim_C1_counterexample :
    claimAddrEq driverSame.Address1 fleetSame.address1 = true
    ∧ claimAddrEq driverSame.Address2 fleetSame.address2 = true
    ∧ claimZipEq driverSame.ZIPCode fleetSame.postCode = true
    ∧ updateCallsOf (runSync findFleetSame updOk [driverSame])
        = [{ driverId := "D1", address1 := " 1 Main St ", address2 := "",
             zipCode := "45202-1234" }] := by
  refine ⟨by decide, by decide, by decide, rfl⟩

/-- C1 amended: the loop issues one update call for every fleet record a
lookup returns, unconditionally: the calls attempted depend only on the
lookup outcomes, never on any comparison of the address fields and never on
the update outcomes; no unchanged counter exists. -/
theorem claim_C1_amended (find : String → Except String (List MaDriver))
    (update : UpdateCall → Except String Unit) (ds : List DriverHomeAddress) :
    updateCallsOf (runSync find update ds)
      = ds.flatMap (fun d =>
          match find d.EmployeeNumber with
          | Except.error _ => []
          | Except.ok rs => rs.map (mkCall d)) :=
  updateCallsOf_runSync find update ds

/-- C2 counterexample: for the worker whose id value is 00321 the fleet
lookup is invoked with 00321 itself, not with the zero-stripped 321 the claim
requires. -/
theorem claim_C2_counterexample :
    lookupCallsOf (runSync findNone updOk (adp2.mapWorkers [worker00321]))
      = ["00321"]
    ∧ ("00321" : String) ≠ "321" := by
  refine ⟨rfl, by decide⟩

/-- C2 amended: the employee number reaches the fleet lookup exactly as the
HR source adapter emitted it, which is the worker id value verbatim; leading
zeros are never stripped anywhere on the path. -/
theorem claim_C2_amended (find : String → Except String (List MaDriver))
    (update : UpdateCall → Except String Unit) (ws : List adp2.ADPWorker) :
    lookupCallsOf (runSync find update (adp2.mapWorkers ws))
      = ws.filterMap (fun w =>
          match w.WorkAssignments with
          | [] => none
          | _ :: _ => some w.WorkerID.IDValue) := by
  rw [lookupCallsOf_runSync]
  induction ws with
  | nil => rfl
  | cons w ws ih =>
      cases hw : w.WorkAssignments with
      | nil =>
          simp only [adp2.mapWorkers, List.filterMap_cons, adp2.driverOfWorker, hw]
          exact ih
      | cons a rest =>
          simp only [adp2.mapWorkers, List.filterMap_cons, adp2.driverOfWorker, hw,
            List.map_cons]
          rw [show adp2.mapWorkers ws = ws.filterMap adp2.driverOfWorker from rfl] at ih
          rw [ih]

/-- C3 counterexample: the wire worker rawOptedOut carries the opt-out custom
field (name a punctuation variant containing OVERDRIVE, value No) and a
non-active assignment status, yet after decoding it is still turned into a
driver, because the Go structs of the five-argument variant decode neither
status codes nor custom fields; the claim requires it to be excluded. -/
theorem claim_C3_counterexample :
    claimOptOutPresent rawOptedOut = true
    ∧ adp2.driverOfWorker (decodeWorker rawOptedOut) ≠ none := by
  refine ⟨by decide, by decide⟩

/-- C3 amended: a raw worker is excluded from the emitted driver sequence if
and only if it has no work assignments; the decoded record retains no status
code and no custom field at either level, so neither an inactive status nor
an opt-out marker can exclude a worker. -/
theorem claim_C3_amended (r : RawWorker) :
    (adp2.driverOfWorker (decodeWorker r)).isSome = !r.WorkAssignments.isEmpty := by
  cases hr : r.WorkAssignments with
  | nil => simp [decodeWorker, adp2.driverOfWorker, hr]
  | cons a rest => simp [decodeWorker, adp2.driverOfWorker, hr]

/-- C5 counterexample: a run whose HR fetch succeeds (fatal component none)
terminates with no run summary of any kind, where the claim requires a
summary with the per-outcome counts to be emitted at the end. -/
theorem claim_C5_counterexample :
    (mainRun (Except.ok [driverSame]) findFleetSame updOk).1 = none
    ∧ (mainRun (Except.ok [driverSame]) findFleetSame updOk).2.2 = none := by
  exact ⟨rfl, rfl⟩

/-- C5 amended: a fatal error while fetching the HR driver sequence aborts the
run before any fleet-side call and produces only the triggering error; a
non-fatal run likewise emits no run summary, because the program maintains no
outcome counters and contains no statement after the loop. -/
theorem claim_C5_amended (e : String)
    (dr : Except String (List DriverHomeAddress))
    (find : String → Except String (List MaDriver))
    (update : UpdateCall → Except String Unit) :
    mainRun (Except.error e) find update = (some e, [], none)
    ∧ (mainRun dr find update).2.2 = none := by
  constructor
  · rfl
  · cases dr <;> rfl

/-- C8: the loop is local in its failures.  Splitting the driver list
anywhere splits the trace, so what happens for one driver never blocks the
processing of later drivers; and the calls attempted (updates and lookups
alike) are identical under any two update oracles, so a failing update on one
fleet record blocks neither its sibling records nor anything after them. -/
theorem claim_C8 (find : String → Except String (List MaDriver))
    (update update2 : UpdateCall → Except String Unit)
    (ds1 ds2 ds : List DriverHomeAddress) :
    runSync find update (ds1 ++ ds2)
      = runSync find update ds1 ++ runSync find update ds2
    ∧ updateCallsOf (runSync find update ds)
        = updateCallsOf (runSync find update2 ds)
    ∧ lookupCallsOf (runSync find update ds)
        = lookupCallsOf (runSync find update2 ds) := by
  refine ⟨runSync_append find update ds1 ds2, ?_, ?_⟩
  · rw [updateCallsOf_runSync, updateCallsOf_runSync]
  · rw [lookupCallsOf_runSync, lookupCallsOf_runSync]

/-- C9 counterexample: the three-argument variant emits a driver for the
worker whose id ABC contains no digit, with an empty employee number, where
the claim requires such a worker to be dropped. -/
theorem claim_C9_counterexample :
    adp1.mapWorkers [workerNoDigits] = [dNoDigits]
    ∧ dNoDigits.EmployeeNumber = ""
    ∧ adp1.mapWorkers [workerNoDigits] ≠ [] := by
  refine ⟨rfl, rfl, by decide⟩

/-- C9 amended: the three-argument variant drops exactly the workers with no
work assignments; every emitted driver's employee number is the digit
filtering of the worker id, which is empty (not dropped) when the id contains
no digit. -/
theorem claim_C9_amended (w : adp1.ADPWorker) (d : DriverHomeAddress) :
    ((adp1.driverOfWorker w).isSome = !w.WorkAssignments.isEmpty)
    ∧ (adp1.driverOfWorker w = some d → d.EmployeeNumber = onlyNums w.WorkerID) := by
  constructor
  · cases hw : w.WorkAssignments with
    | nil => simp [adp1.driverOfWorker, hw]
    | cons a rest => simp [adp1.driverOfWorker, hw]
  · intro h
    unfold adp1.driverOfWorker at h
    cases hw : w.WorkAssignments with
    | nil => rw [hw] at h; cases h
    | cons a rest =>
        rw [hw] at h
        cases h
        rfl

/-- Witness for C9 amended at a concrete input: the digitless worker is
emitted and its employee number is the (empty) digit filtering of its id. -/
theorem claim_C9_amended_witness :
    adp1.driverOfWorker workerNoDigits = some dNoDigits
    ∧ dNoDigits.EmployeeNumber = onlyNums workerNoDigits.WorkerID :=
  ⟨rfl, (claim_C9_amended workerNoDigits dNoDigits).2 rfl⟩

/-- C10: when the workers response decodes to an empty array,
GetDriverHomeAddresses returns an empty driver sequence with no error, and
the run then completes non-fatally without a single fleet-side lookup or
update call. -/
theorem claim_C10 (find : String → Except String (List MaDriver))
    (update : UpdateCall → Except String Unit) :
    adp2.GetDriverHomeAddresses (Except.ok []) = Except.ok []
    ∧ mainRun (adp2.GetDriverHomeAddresses (Except.ok [])) find update
        = (none, [], none) := by
  exact ⟨rfl, rfl⟩
